import Mathlib

/-!
Verification development for the distributed coordination layer of the
drone-tomography repository: the typed packet model, the RF sensor node
runtime (`src/zigbee/RF_Sensor.py`), the TDMA slot scheduler interface,
and the network-driven mission synchronisation protocol
(`src/mission/Mission_XBee.py`, `src/trajectory/Mission.py`).

Machine integers of the Python source are modelled as `Int` (Python ints
are unbounded), coordinates as `Rat`, and fallible operations return an
explicit error component. Stateful methods are embedded as explicit
state-passing functions.
-/

namespace DroneTomography

/-! ## Packet model

The packet registry (spec section 6) assigns each specification name a fixed
field set. `Packet.py` itself is not part of the available sources, so the
packet value is represented as a tagged variant over the registry, one
constructor per specification with its declared typed fields.
-/

/-- A typed packet value, tagged by its specification name. One constructor
per registry entry, carrying exactly the declared fields of that
specification. -/
inductive Packet where
  | rssi_broadcast (latitude longitude : Rat) (valid valid_pair : Bool)
      (waypoint_index : Int) (sensor_id : Int) (timestamp : Rat)
  | rssi_ground_station (sensor_id : Int) (from_latitude from_longitude : Rat)
      (from_valid : Bool) (to_latitude to_longitude : Rat) (to_valid : Bool)
  | waypoint_clear (to_id : Int)
  | waypoint_add (to_id index : Int) (latitude longitude altitude : Rat)
      (type : Int) (wait_id wait_count wait_waypoint : Int)
  | waypoint_done (to_id : Int)
  | waypoint_ack (next_index : Int) (sensor_id : Int)
  deriving DecidableEq, Repr

/-- Modelled from the spec: `Packet.py` is not among the available source
files; spec section 4.1 defines `is_private()` as true iff the packet's
specification is `rssi_broadcast` or `rssi_ground_station`. -/
def Packet.is_private : Packet → Bool
  | .rssi_broadcast .. => true
  | .rssi_ground_station .. => true
  | _ => false

/-! ## RF sensor node runtime (`src/zigbee/RF_Sensor.py`) -/

/-- The configuration of one RF sensor: its own id (`self._id`) and the
number of sensors in the network (`self._number_of_sensors`). -/
structure SensorCfg where
  id : Int
  number_of_sensors : Nat
  deriving DecidableEq, Repr

/-- One entry of the custom-packet queue `self._custom_packets`: the packet
payload together with its destination id, mirroring the dict
with keys "packet" and "to" that `RF_Sensor.enqueue` puts on the queue. -/
structure QueueItem where
  packet : Packet
  toId : Int
  deriving DecidableEq, Repr

/-- The vehicle ids `xrange(1, number_of_sensors + 1)` iterated by
`RF_Sensor.enqueue` and `RF_Sensor._send`: the list `[1, 2, ..., N]`. -/
def vehicleIds : Nat → List Int
  | 0 => []
  | n + 1 => vehicleIds n ++ [(n : Int) + 1]

/-- The errors `RF_Sensor.enqueue` can raise: a `ValueError` for a private
packet. (The `TypeError` for a non-`Packet` argument cannot arise in the
typed embedding.) -/
inductive EnqueueError where
  | privatePacket
  deriving DecidableEq, Repr

/-- Result of `RF_Sensor.enqueue`: the possibly-raised error together with
the state of the custom-packet queue afterwards. When an error is raised
the queue is returned as it was, since the source raises before any
`put`. -/
structure EnqueueResult where
  error : Option EnqueueError
  queue : List QueueItem
  deriving DecidableEq, Repr

/-- `RF_Sensor.enqueue(packet, to=None)` (src/zigbee/RF_Sensor.py lines
260-286): raise `ValueError` if the packet is private; with `to = None`
put one copy per vehicle id in `1..number_of_sensors` other than the own
id; otherwise put one copy addressed to `to`. -/
def RF_Sensor.enqueue (cfg : SensorCfg) (packet : Packet) (dest : Option Int)
    (queue : List QueueItem) : EnqueueResult :=
  if packet.is_private then
    { error := some .privatePacket, queue := queue }
  else
    match dest with
    | none =>
        { error := none
          queue := queue ++
            ((vehicleIds cfg.number_of_sensors).filter (fun toId => toId ≠ cfg.id)).map
              (fun toId => { packet := packet, toId := toId }) }
    | some t =>
        { error := none, queue := queue ++ [{ packet := packet, toId := t }] }

/-! ## TDMA slot scheduler

`TDMA_Scheduler.py` is not among the available source files; the slot
predicate is modelled from the spec (sections 4.2 and 8).
-/

/-- Modelled from the spec: `TDMA_Scheduler.py` is missing from the
available sources. The absolute slot number at time `now`, namely
`floor((now - frame_start) / slot_duration)` (spec section 4.2). -/
def slotNumber (frameStart slotDuration now : Rat) : Int :=
  ⌊(now - frameStart) / slotDuration⌋

/-- Modelled from the spec: `TDMA_Scheduler.py` is missing from the
available sources. `in_slot(now)` is true iff
`floor((now - frame_start) / slot_duration) mod (N+1) == own_id`, where
`N` is the number of vehicles (spec section 4.2). -/
def in_slot (numberOfVehicles : Nat) (ownId : Int)
    (frameStart slotDuration now : Rat) : Bool :=
  slotNumber frameStart slotDuration now % ((numberOfVehicles : Int) + 1) == ownId

/-! ## Sensor loop and transport loss (`RF_Sensor._loop`, `_send_tx_frame`) -/

/-- The exceptions distinguished by `RF_Sensor._loop`: the dedicated
`DisabledException` raised when the transport connection is absent, and
any other exception (tagged by an abstract code). -/
inductive Exc where
  | disabled
  | other (code : Nat)
  deriving DecidableEq, Repr

/-- Outcome of one execution of `RF_Sensor._loop_body`: it either returns
normally or raises an exception. -/
inductive BodyOutcome where
  | ok
  | raised (e : Exc)
  deriving DecidableEq, Repr

/-- How `RF_Sensor._loop` terminated: the `while self._activated` loop ran
to completion, or the `except DisabledException: return` arm fired, or the
bare `except:` arm fired. -/
inductive LoopTermination where
  | completed
  | disabledStop
  | interrupted
  deriving DecidableEq, Repr

/-- Result of `RF_Sensor._loop`: how it terminated and whether it escalated
to the supervisor by calling `Threadable.interrupt()`. -/
structure LoopResult where
  termination : LoopTermination
  reportedToSupervisor : Bool
  deriving DecidableEq, Repr

/-- `RF_Sensor._loop` (src/zigbee/RF_Sensor.py lines 311-322), embedded over
the sequence of outcomes of its successive `_loop_body` iterations (the
list ends when `self._activated` becomes false): the first raised
exception decides the termination — `DisabledException` returns silently,
anything else calls `interrupt()` on the supervisor. -/
def RF_Sensor.loopRun : List BodyOutcome → LoopResult
  | [] => { termination := .completed, reportedToSupervisor := false }
  | .ok :: rest => RF_Sensor.loopRun rest
  | .raised .disabled :: _ =>
      { termination := .disabledStop, reportedToSupervisor := false }
  | .raised (.other _) :: _ =>
      { termination := .interrupted, reportedToSupervisor := true }

/-- `RF_Sensor._send_tx_frame(packet, to)` (src/zigbee/RF_Sensor.py lines
378-396), up to its guard checks: raises `DisabledException` when
`self._connection is None`, raises a `TypeError` (an ordinary exception)
when `to is None`, and otherwise succeeds. The connection is modelled as
`Option Unit` (present or absent) and the payload is irrelevant to the
guards. -/
def RF_Sensor.send_tx_frame (connection : Option Unit) (packet : Packet)
    (dest : Option Int) : Except Exc Unit :=
  match connection with
  | none => .error .disabled
  | some _ =>
      match dest with
      | none => .error (.other 0)
      | some _ =>
          match packet with
          | _ => .ok ()

/-- The outcome of a `_loop_body` iteration whose work is a single
`_send_tx_frame` call: a raised exception propagates out of the body. -/
def RF_Sensor.bodyOfSend (connection : Option Unit) (packet : Packet)
    (dest : Option Int) : BodyOutcome :=
  match RF_Sensor.send_tx_frame connection packet dest with
  | .ok _ => .ok
  | .error e => .raised e

/-! ## Scheduled measurement send (`RF_Sensor._send`)

`self._scheduler.in_slot` is consulted repeatedly during one `_send`; each
consultation may observe a different answer as time passes. The embedding
threads a counter of consultations and takes the scheduler's successive
answers as a function `slot : Nat → Bool` of the consultation index.
-/

/-- A frame transmitted by `RF_Sensor._send`, recording the destination,
the relayed payload when it came from the measurement queue, and the index
of the `in_slot` consultation that authorised it. -/
inductive SentFrame where
  | broadcast (toId : Int) (check : Nat)
  | relay (packet : Packet) (check : Nat)
  deriving DecidableEq, Repr

/-- The `in_slot` consultation index that authorised a sent frame. -/
def SentFrame.check : SentFrame → Nat
  | .broadcast _ c => c
  | .relay _ c => c

/-- The relayed payloads among a list of sent frames, in order. -/
def relayedPackets (frames : List SentFrame) : List Packet :=
  frames.filterMap (fun f =>
    match f with
    | .relay p _ => some p
    | .broadcast _ _ => none)

/-- State threaded through `RF_Sensor._send`: the number of `in_slot`
consultations so far, the frames transmitted so far, and the measurement
relay queue `self._packets`. -/
structure SendState where
  checks : Nat
  sent : List SentFrame
  packets : List Packet
  deriving DecidableEq, Repr

/-- The broadcast `for` loop of `RF_Sensor._send` (src/zigbee/RF_Sensor.py
lines 354-362): for each destination id, first re-check `in_slot` and
`return` from `_send` if it no longer holds (the returned flag records
this early return, which also skips the relay phase), then skip the own
id, then transmit a broadcast frame. -/
def RF_Sensor.broadcastLoop (slot : Nat → Bool) (ownId : Int) :
    List Int → SendState → SendState × Bool
  | [], st => (st, false)
  | toId :: rest, st =>
      let c := st.checks
      if slot c = false then
        ({ st with checks := c + 1 }, true)
      else if toId = ownId then
        RF_Sensor.broadcastLoop slot ownId rest { st with checks := c + 1 }
      else
        RF_Sensor.broadcastLoop slot ownId rest
          { st with checks := c + 1, sent := st.sent ++ [.broadcast toId c] }

/-- The relay `while` loop of `RF_Sensor._send` (src/zigbee/RF_Sensor.py
lines 365-367): while the measurement queue is non-empty and `in_slot`
still holds, pop a packet and transmit it to the ground station (id 0).
The emptiness test short-circuits, so `in_slot` is only consulted when a
packet remains. -/
def RF_Sensor.relayLoop (slot : Nat → Bool) :
    List Packet → Nat → List SentFrame → SendState
  | [], c, sent => { checks := c, sent := sent, packets := [] }
  | p :: rest, c, sent =>
      if slot c then
        RF_Sensor.relayLoop slot rest (c + 1) (sent ++ [.relay p c])
      else
        { checks := c + 1, sent := sent, packets := p :: rest }

/-- `RF_Sensor._send` (src/zigbee/RF_Sensor.py lines 345-367): broadcast to
every other sensor, re-checking `in_slot` before each destination, then
relay queued measurement packets to the ground station while `in_slot`
still holds. An early return from the broadcast phase skips the relay
phase entirely. -/
def RF_Sensor.send (slot : Nat → Bool) (cfg : SensorCfg)
    (packets : List Packet) : SendState :=
  let init : SendState := { checks := 0, sent := [], packets := packets }
  let (st, earlyReturn) :=
    RF_Sensor.broadcastLoop slot cfg.id (vehicleIds cfg.number_of_sensors) init
  if earlyReturn then st
  else RF_Sensor.relayLoop slot st.packets st.checks st.sent

/-! ## Mission synchronisation protocol (`src/mission/Mission_XBee.py`)

The handlers mutate the vehicle's command list (via `Mission.clear_mission`
and the waypoint-append primitive), the counter `self._next_index`, the flag
`self._waypoints_complete`, and enqueue acknowledgement packets through
`RF_Sensor.enqueue`. The world state additionally carries whether a
persisted mission dump artifact exists on storage; no code path in
`src/mission/Mission_XBee.py` or `src/trajectory/Mission.py` performs any
storage operation, so the embedded handlers leave that component exactly as
the source does: untouched.
-/

/-- One entry of the vehicle's command list: the launch (takeoff) entry or
a location waypoint with its optional required-peer set (the
`required_sensors` argument computed by `Mission_XBee._add_waypoint`). -/
inductive Command where
  | takeoff
  | waypoint (latitude longitude altitude : Rat)
      (requiredSensors : Option (List Int))
  deriving DecidableEq, Repr

/-- The mission state owned by `Mission_XBee`: the vehicle command list,
`self._next_index` and `self._waypoints_complete`. -/
structure MissionState where
  commands : List Command
  next_index : Int
  waypoints_complete : Bool
  deriving DecidableEq, Repr

/-- The world a mission packet handler acts on: the mission state, the RF
sensor's custom-packet queue (where acknowledgements are enqueued), and
whether a persisted mission dump artifact currently exists on storage. -/
structure MissionWorld where
  mission : MissionState
  queue : List QueueItem
  dumpExists : Bool
  deriving DecidableEq, Repr

/-- The typed fields of a `waypoint_add` packet, per the registry (spec
section 6). `Mission_XBee._add_waypoint` reads `to_id`, `index`,
`latitude`, `longitude`, `altitude` and `wait_id`; the remaining declared
fields are carried but unread by the handler. -/
structure WaypointAdd where
  to_id : Int
  index : Int
  latitude : Rat
  longitude : Rat
  altitude : Rat
  type : Int
  wait_id : Int
  wait_count : Int
  wait_waypoint : Int
  deriving DecidableEq, Repr

/-- The waypoint command decoded from a `waypoint_add` packet by
`Mission_XBee._add_waypoint`: the coordinate triple as a
`LocationGlobalRelative`, and `required_sensors = [wait_id]` when
`wait_id > 0`, else `None`. -/
def decodeWaypoint (p : WaypointAdd) : Command :=
  .waypoint p.latitude p.longitude p.altitude
    (if p.wait_id > 0 then some [p.wait_id] else none)

/-- `Mission_XBee._send_ack` (src/mission/Mission_XBee.py lines 59-75):
build a `waypoint_ack` packet carrying `self._next_index` and the sensor's
id, and enqueue it to the ground station with `enqueue(ack_packet, to=0)`. -/
def Mission_XBee._send_ack (cfg : SensorCfg) (nextIndex : Int)
    (queue : List QueueItem) : List QueueItem :=
  (RF_Sensor.enqueue cfg (.waypoint_ack nextIndex cfg.id) (some 0) queue).queue

/-- `Mission.clear_mission` (src/trajectory/Mission.py lines 74-86): clear
the vehicle's command list (the subsequent re-download of the now-empty
mission leaves it empty). -/
def Mission.clear_mission (s : MissionState) : MissionState :=
  { s with commands := [] }

/-- Modelled from the spec: the `add_takeoff` primitive invoked by
`Mission_XBee._clear_waypoints` is missing from the available sources;
spec section 4.4 says the handler re-inserts the mandatory launch entry,
so it appends the takeoff command to the command list. -/
def Mission.add_takeoff (s : MissionState) : MissionState :=
  { s with commands := s.commands ++ [.takeoff] }

/-- Modelled from the spec: the `add_waypoint` primitive invoked by
`Mission_XBee._add_waypoint` is missing from the available sources; spec
sections 3 and 4.4 say the decoded waypoint entry is appended to the
waypoint list, so it appends the given command. -/
def Mission.add_waypoint (s : MissionState) (c : Command) : MissionState :=
  { s with commands := s.commands ++ [c] }

/-- `Mission_XBee._clear_waypoints` (src/mission/Mission_XBee.py lines
77-91): ignore the packet unless `to_id` matches the sensor id; otherwise
clear the mission, re-add the takeoff command, reset `self._next_index`
to 0 and send an acknowledgement. -/
def Mission_XBee._clear_waypoints (cfg : SensorCfg) (to_id : Int)
    (w : MissionWorld) : MissionWorld :=
  if cfg.id ≠ to_id then w
  else
    let mission := Mission.add_takeoff (Mission.clear_mission w.mission)
    let mission := { mission with next_index := 0 }
    { w with
        mission := mission
        queue := Mission_XBee._send_ack cfg mission.next_index w.queue }

/-- `Mission_XBee._add_waypoint` (src/mission/Mission_XBee.py lines
93-125): ignore the packet unless `to_id` matches the sensor id; if the
packet's `index` differs from `self._next_index`, only send an
acknowledgement (echoing the current `self._next_index`); otherwise append
the decoded waypoint, increment `self._next_index` and send an
acknowledgement carrying the new value. -/
def Mission_XBee._add_waypoint (cfg : SensorCfg) (p : WaypointAdd)
    (w : MissionWorld) : MissionWorld :=
  if cfg.id ≠ p.to_id then w
  else if p.index ≠ w.mission.next_index then
    { w with queue := Mission_XBee._send_ack cfg w.mission.next_index w.queue }
  else
    let mission := Mission.add_waypoint w.mission (decodeWaypoint p)
    let mission := { mission with next_index := mission.next_index + 1 }
    { w with
        mission := mission
        queue := Mission_XBee._send_ack cfg mission.next_index w.queue }

/-- `Mission_XBee._complete_waypoints` (src/mission/Mission_XBee.py lines
23-31): ignore the packet unless `to_id` matches the sensor id; otherwise
set `self._waypoints_complete` to true. The handler performs no other
action: it does not write any dump and does not enqueue any packet. -/
def Mission_XBee._complete_waypoints (cfg : SensorCfg) (to_id : Int)
    (w : MissionWorld) : MissionWorld :=
  if cfg.id ≠ to_id then w
  else { w with mission := { w.mission with waypoints_complete := true } }

/-- Outcome of calling a Python method that either returns a value or
raises an exception (tagged by an abstract code). -/
inductive PyResult where
  | returns
  | raises (code : Nat)
  deriving DecidableEq, Repr

/-- Whether a call outcome is a raised exception (a loud failure). -/
def PyResult.failsLoudly : PyResult → Bool
  | .returns => false
  | .raises _ => true

/-- `Mission_XBee.get_points` (src/mission/Mission_XBee.py lines 50-53):
returns the empty list — there are no points for automatically added
commands. -/
def Mission_XBee.get_points : List (Rat × Rat × Rat) := []

/-- `Mission_XBee.add_commands` (src/mission/Mission_XBee.py lines 55-57):
the body is `pass`, so a direct invocation returns normally and raises
nothing. This override is what a call on the network-driven mission
dispatches to. -/
def Mission_XBee.add_commands : PyResult := .returns

/-- `Mission_Auto.add_commands` (src/trajectory/Mission.py lines 301-302):
`raise NotImplemented(...)`, i.e. the base-class method raises. It is
shadowed by the `Mission_XBee.add_commands` override. -/
def Mission_Auto.add_commands : PyResult := .raises 0

/-! ## Helper lemmas -/

/-- Membership in the vehicle id list is exactly the interval `1..N`. -/
lemma mem_vehicleIds {numberOfSensors : Nat} {i : Int} :
    i ∈ vehicleIds numberOfSensors ↔ 1 ≤ i ∧ i ≤ (numberOfSensors : Int) := by
  induction numberOfSensors with
  | zero =>
      simp only [vehicleIds, List.not_mem_nil, false_iff]
      omega
  | succ n ih =>
      simp only [vehicleIds, List.mem_append, List.mem_singleton, ih]
      constructor
      · rintro (⟨h1, h2⟩ | rfl)
        · push_cast
          omega
        · push_cast
          omega
      · rintro ⟨h1, h2⟩
        push_cast at h2
        by_cases hi : i = (n : Int) + 1
        · exact Or.inr hi
        · exact Or.inl ⟨h1, by omega⟩

/-- The vehicle id list has no duplicates. -/
lemma vehicleIds_nodup (numberOfSensors : Nat) :
    (vehicleIds numberOfSensors).Nodup := by
  induction numberOfSensors with
  | zero => simp [vehicleIds]
  | succ n ih =>
      simp only [vehicleIds]
      refine List.Nodup.append ih (List.nodup_singleton _) ?_
      intro x hx hx'
      rw [List.mem_singleton] at hx'
      subst hx'
      have := mem_vehicleIds.mp hx
      omega

/-- The vehicle id list has one entry per vehicle. -/
lemma vehicleIds_length (n : Nat) : (vehicleIds n).length = n := by
  induction n with
  | zero => rfl
  | succ m ih => simp [vehicleIds, ih]

/-- Removing one id that lies in `1..N` from the vehicle id list leaves
`N - 1` entries. -/
lemma filter_ne_vehicleIds_length (n : Nat) (s : Int) (h1 : 1 ≤ s)
    (h2 : s ≤ (n : Int)) :
    ((vehicleIds n).filter (fun i => i ≠ s)).length = n - 1 := by
  induction n with
  | zero => omega
  | succ m ih =>
      rw [vehicleIds, List.filter_append, List.length_append]
      by_cases hs : s = (m : Int) + 1
      · have hkeep : (vehicleIds m).filter (fun i => i ≠ s) = vehicleIds m := by
          apply List.filter_eq_self.mpr
          intro x hx
          have := mem_vehicleIds.mp hx
          subst hs
          simp only [ne_eq, decide_eq_true_eq]
          omega
        have hdrop : ([(m : Int) + 1].filter (fun i => i ≠ s)).length = 0 := by
          subst hs
          simp
        rw [hkeep, hdrop, vehicleIds_length]
        omega
      · have hs' : s ≤ (m : Int) := by
          push_cast at h2
          omega
        have hlast : ([(m : Int) + 1].filter (fun i => i ≠ s)).length = 1 := by
          have : ((m : Int) + 1) ≠ s := fun h => hs h.symm
          simp [this]
        rw [hlast, ih hs']
        omega

/-- `Mission_XBee._send_ack` appends exactly one acknowledgement item,
addressed to the ground station (id 0). -/
lemma send_ack_queue (cfg : SensorCfg) (nextIndex : Int)
    (queue : List QueueItem) :
    Mission_XBee._send_ack cfg nextIndex queue =
      queue ++ [{ packet := .waypoint_ack nextIndex cfg.id, toId := 0 }] := by
  rfl

/-- A prefix of normally returning iterations does not affect how
`RF_Sensor._loop` terminates. -/
lemma loopRun_ok_leading (pre rest : List BodyOutcome)
    (hpre : ∀ o ∈ pre, o = .ok) :
    RF_Sensor.loopRun (pre ++ rest) = RF_Sensor.loopRun rest := by
  induction pre with
  | nil => rfl
  | cons o t ih =>
      have ho : o = .ok := hpre o (List.mem_cons_self o t)
      subst ho
      exact ih (fun o ho => hpre o (List.mem_cons_of_mem _ ho))

/-- The broadcast phase of `RF_Sensor._send` never touches the relay queue,
and every frame it appends is a broadcast frame authorised by an `in_slot`
consultation that returned true. -/
lemma broadcastLoop_spec (slot : Nat → Bool) (ownId : Int) :
    ∀ (ids : List Int) (st : SendState),
      (RF_Sensor.broadcastLoop slot ownId ids st).1.packets = st.packets ∧
      ∃ Δ, (RF_Sensor.broadcastLoop slot ownId ids st).1.sent = st.sent ++ Δ ∧
        relayedPackets Δ = [] ∧
        ∀ f ∈ Δ, slot f.check = true := by
  intro ids
  induction ids with
  | nil =>
      intro st
      exact ⟨rfl, [], by simp [RF_Sensor.broadcastLoop], by simp [relayedPackets],
        by simp⟩
  | cons toId rest ih =>
      intro st
      by_cases hs : slot st.checks = false
      · refine ⟨?_, [], ?_, by simp [relayedPackets], by simp⟩
        · simp [RF_Sensor.broadcastLoop, hs]
        · simp [RF_Sensor.broadcastLoop, hs]
      · by_cases hown : toId = ownId
        · have h1 := ih ⟨st.checks + 1, st.sent, st.packets⟩
          constructor
          · simpa [RF_Sensor.broadcastLoop, hs, hown] using h1.1
          · obtain ⟨Δ, hΔ, hrel, hall⟩ := h1.2
            exact ⟨Δ, by simpa [RF_Sensor.broadcastLoop, hs, hown] using hΔ,
              hrel, hall⟩
        · have h1 := ih ⟨st.checks + 1, st.sent ++ [.broadcast toId st.checks],
            st.packets⟩
          constructor
          · simpa [RF_Sensor.broadcastLoop, hs, hown] using h1.1
          · obtain ⟨Δ, hΔ, hrel, hall⟩ := h1.2
            refine ⟨SentFrame.broadcast toId st.checks :: Δ, ?_, ?_, ?_⟩
            · simp only [List.append_assoc, List.singleton_append] at hΔ
              simpa [RF_Sensor.broadcastLoop, hs, hown] using hΔ
            · simpa [relayedPackets] using hrel
            · intro f hf
              rcases List.mem_cons.mp hf with rfl | hf'
              · simpa [SentFrame.check] using eq_true_of_ne_false hs
              · exact hall f hf'

/-- The relay phase of `RF_Sensor._send` appends only frames authorised by
an `in_slot` consultation that returned true, and the relayed payloads
together with the remaining queue reconstitute the original queue. -/
lemma relayLoop_spec (slot : Nat → Bool) :
    ∀ (ps : List Packet) (c : Nat) (sent : List SentFrame),
      ∃ Δ, (RF_Sensor.relayLoop slot ps c sent).sent = sent ++ Δ ∧
        (∀ f ∈ Δ, slot f.check = true) ∧
        relayedPackets Δ ++ (RF_Sensor.relayLoop slot ps c sent).packets = ps := by
  intro ps
  induction ps with
  | nil =>
      intro c sent
      exact ⟨[], by simp [RF_Sensor.relayLoop], by simp,
        by simp [RF_Sensor.relayLoop, relayedPackets]⟩
  | cons p rest ih =>
      intro c sent
      by_cases hs : slot c
      · obtain ⟨Δ, hΔ, hall, hrec⟩ := ih (c + 1) (sent ++ [.relay p c])
        refine ⟨SentFrame.relay p c :: Δ, ?_, ?_, ?_⟩
        · simp only [List.append_assoc, List.singleton_append] at hΔ
          simpa [RF_Sensor.relayLoop, hs] using hΔ
        · intro f hf
          rcases List.mem_cons.mp hf with rfl | hf'
          · simpa [SentFrame.check] using hs
          · exact hall f hf'
        · simpa [RF_Sensor.relayLoop, hs, relayedPackets] using hrec
      · exact ⟨[], by simp [RF_Sensor.relayLoop, hs], by simp,
          by simp [RF_Sensor.relayLoop, hs, relayedPackets]⟩

/-- Evaluation of `Mission_XBee._add_waypoint` on a matching in-order
packet: the decoded waypoint is appended, the counter advances and the
acknowledgement for the new counter value is enqueued to id 0. -/
lemma add_waypoint_accept_eq (cfg : SensorCfg) (p : WaypointAdd)
    (w : MissionWorld) (hto : cfg.id = p.to_id)
    (hidx : p.index = w.mission.next_index) :
    Mission_XBee._add_waypoint cfg p w =
      { mission :=
          { commands := w.mission.commands ++ [decodeWaypoint p]
            next_index := w.mission.next_index + 1
            waypoints_complete := w.mission.waypoints_complete }
        queue := w.queue ++
          [{ packet := Packet.waypoint_ack (w.mission.next_index + 1) cfg.id,
             toId := 0 }]
        dumpExists := w.dumpExists } := by
  unfold Mission_XBee._add_waypoint
  rw [if_neg (fun h => h hto), if_neg (fun h => h hidx)]
  rfl

/-- Evaluation of `Mission_XBee._add_waypoint` on a matching packet whose
index is not the expected one: only the acknowledgement for the current
counter value is enqueued. -/
lemma add_waypoint_mismatch_eq (cfg : SensorCfg) (p : WaypointAdd)
    (w : MissionWorld) (hto : cfg.id = p.to_id)
    (hidx : p.index ≠ w.mission.next_index) :
    Mission_XBee._add_waypoint cfg p w =
      { mission := w.mission
        queue := w.queue ++
          [{ packet := Packet.waypoint_ack w.mission.next_index cfg.id,
             toId := 0 }]
        dumpExists := w.dumpExists } := by
  unfold Mission_XBee._add_waypoint
  rw [if_neg (fun h => h hto), if_pos hidx]
  rfl

/-- Evaluation of `Mission_XBee._clear_waypoints` on a matching packet:
the command list becomes the single takeoff entry, the counter resets and
the acknowledgement for index 0 is enqueued; nothing touches the dump. -/
lemma clear_waypoints_eq (cfg : SensorCfg) (to_id : Int) (w : MissionWorld)
    (hto : cfg.id = to_id) :
    Mission_XBee._clear_waypoints cfg to_id w =
      { mission :=
          { commands := [Command.takeoff]
            next_index := 0
            waypoints_complete := w.mission.waypoints_complete }
        queue := w.queue ++
          [{ packet := Packet.waypoint_ack 0 cfg.id, toId := 0 }]
        dumpExists := w.dumpExists } := by
  unfold Mission_XBee._clear_waypoints
  rw [if_neg (fun h => h hto)]
  rfl

/-- Evaluation of `Mission_XBee._complete_waypoints` on a matching packet:
only the completion flag changes. -/
lemma complete_waypoints_eq (cfg : SensorCfg) (to_id : Int) (w : MissionWorld)
    (hto : cfg.id = to_id) :
    Mission_XBee._complete_waypoints cfg to_id w =
      { mission :=
          { commands := w.mission.commands
            next_index := w.mission.next_index
            waypoints_complete := true }
        queue := w.queue
        dumpExists := w.dumpExists } := by
  unfold Mission_XBee._complete_waypoints
  rw [if_neg (fun h => h hto)]

/-! ## Claim theorems -/

/-- C7: for every packet whose `is_private()` is true, `enqueue` fails with
an error (the `ValueError` for private packets) and leaves the
custom-packet queue unchanged, for any destination argument. -/
theorem enqueue_private_rejected (cfg : SensorCfg) (p : Packet)
    (dest : Option Int) (q : List QueueItem) (hp : p.is_private = true) :
    (RF_Sensor.enqueue cfg p dest q).error = some .privatePacket ∧
    (RF_Sensor.enqueue cfg p dest q).queue = q := by
  constructor <;> simp [RF_Sensor.enqueue, hp]

/-- C7 witness: a concrete `rssi_broadcast` packet is rejected by `enqueue`
and the queue is left unchanged. -/
theorem enqueue_private_rejected_witness :
    (Packet.rssi_broadcast 1 2 true false 0 1 0).is_private = true ∧
    ((RF_Sensor.enqueue ⟨1, 3⟩ (Packet.rssi_broadcast 1 2 true false 0 1 0)
        (some 2) []).error = some .privatePacket ∧
      (RF_Sensor.enqueue ⟨1, 3⟩ (Packet.rssi_broadcast 1 2 true false 0 1 0)
        (some 2) []).queue = []) :=
  ⟨by decide,
    enqueue_private_rejected ⟨1, 3⟩ (Packet.rssi_broadcast 1 2 true false 0 1 0)
      (some 2) [] (by decide)⟩

/-- C6: for a non-private packet and a node whose own id lies in `1..N`,
`enqueue` without a destination puts exactly `N - 1` entries on the
custom-packet queue — one for each vehicle id in `1..N` other than the own
id, each carrying the packet — while `enqueue` with a destination puts
exactly one entry addressed to it. -/
theorem enqueue_fanout (cfg : SensorCfg) (p : Packet) (q : List QueueItem)
    (hp : p.is_private = false) (h1 : 1 ≤ cfg.id)
    (h2 : cfg.id ≤ (cfg.number_of_sensors : Int)) :
    (∃ items, (RF_Sensor.enqueue cfg p none q).queue = q ++ items ∧
      items.length = cfg.number_of_sensors - 1 ∧
      (∀ it ∈ items, it.packet = p) ∧
      (∀ i : Int, i ∈ items.map QueueItem.toId ↔
        (1 ≤ i ∧ i ≤ (cfg.number_of_sensors : Int) ∧ i ≠ cfg.id)) ∧
      (items.map QueueItem.toId).Nodup) ∧
    (∀ t : Int, (RF_Sensor.enqueue cfg p (some t) q).queue
        = q ++ [{ packet := p, toId := t }]) := by
  have hfilter := filter_ne_vehicleIds_length cfg.number_of_sensors cfg.id h1 h2
  refine ⟨⟨((vehicleIds cfg.number_of_sensors).filter (fun i => i ≠ cfg.id)).map
    (fun toId => { packet := p, toId := toId }), ?_, ?_, ?_, ?_, ?_⟩, ?_⟩
  · simp [RF_Sensor.enqueue, hp]
  · rw [List.length_map]
    exact hfilter
  · intro it hit
    obtain ⟨i, _, rfl⟩ := List.mem_map.mp hit
    rfl
  · intro i
    have hids : (((vehicleIds cfg.number_of_sensors).filter
        (fun i => i ≠ cfg.id)).map
          (fun toId => ({ packet := p, toId := toId } : QueueItem))).map
            QueueItem.toId
        = (vehicleIds cfg.number_of_sensors).filter (fun i => i ≠ cfg.id) := by
      rw [List.map_map]
      exact List.map_id'' (fun a => rfl) _
    rw [hids, List.mem_filter]
    constructor
    · rintro ⟨hmem, hne⟩
      obtain ⟨ha, hb⟩ := mem_vehicleIds.mp hmem
      exact ⟨ha, hb, by simpa using hne⟩
    · rintro ⟨ha, hb, hne⟩
      exact ⟨mem_vehicleIds.mpr ⟨ha, hb⟩, by simpa using hne⟩
  · have hids : (((vehicleIds cfg.number_of_sensors).filter
        (fun i => i ≠ cfg.id)).map
          (fun toId => ({ packet := p, toId := toId } : QueueItem))).map
            QueueItem.toId
        = (vehicleIds cfg.number_of_sensors).filter (fun i => i ≠ cfg.id) := by
      rw [List.map_map]
      exact List.map_id'' (fun a => rfl) _
    rw [hids]
    exact (vehicleIds_nodup cfg.number_of_sensors).filter _
  · intro t
    simp [RF_Sensor.enqueue, hp]

/-- C6 witness: with 3 sensors and own id 1, the broadcast fan-out puts
exactly two entries on the queue (addressed to ids 2 and 3) and a directed
enqueue puts exactly one. -/
theorem enqueue_fanout_witness :
    ((Packet.waypoint_done 2).is_private = false ∧ 1 ≤ (1 : Int) ∧
      (1 : Int) ≤ ((3 : Nat) : Int)) ∧
    ((∃ items, (RF_Sensor.enqueue ⟨1, 3⟩ (Packet.waypoint_done 2) none
        []).queue = [] ++ items ∧
      items.length = 3 - 1 ∧
      (∀ it ∈ items, it.packet = Packet.waypoint_done 2) ∧
      (∀ i : Int, i ∈ items.map QueueItem.toId ↔
        (1 ≤ i ∧ i ≤ ((3 : Nat) : Int) ∧ i ≠ (1 : Int))) ∧
      (items.map QueueItem.toId).Nodup) ∧
    (∀ t : Int, (RF_Sensor.enqueue ⟨1, 3⟩ (Packet.waypoint_done 2)
        (some t) []).queue
        = [] ++ [{ packet := Packet.waypoint_done 2, toId := t }])) :=
  ⟨⟨by decide, by decide, by decide⟩,
    enqueue_fanout ⟨1, 3⟩ (Packet.waypoint_done 2) [] (by decide) (by decide)
      (by decide)⟩

/-- C8: a send attempted while the transport connection is absent raises the
distinguished `DisabledException`, which makes the loop terminate through
the `disabledStop` termination without reporting to the supervisor; a loop
iteration raising any other exception terminates the loop through the
`interrupted` termination, escalated to the supervisor; and the two
terminations are distinct. -/
theorem loop_disabled_vs_interrupted (pre rest : List BodyOutcome)
    (p : Packet) (dest : Option Int) (code : Nat)
    (hpre : ∀ o ∈ pre, o = .ok) :
    RF_Sensor.send_tx_frame none p dest = .error .disabled ∧
    RF_Sensor.loopRun (pre ++ RF_Sensor.bodyOfSend none p dest :: rest) =
      { termination := .disabledStop, reportedToSupervisor := false } ∧
    RF_Sensor.loopRun (pre ++ .raised (.other code) :: rest) =
      { termination := .interrupted, reportedToSupervisor := true } ∧
    LoopTermination.disabledStop ≠ LoopTermination.interrupted := by
  refine ⟨rfl, ?_, ?_, by decide⟩
  · rw [loopRun_ok_leading pre _ hpre]
    rfl
  · rw [loopRun_ok_leading pre _ hpre]
    rfl

/-- C8 witness: with one normal iteration before the failure, a send on an
absent connection stops the loop through the disabled termination while a
different exception interrupts, at concrete inputs. -/
theorem loop_disabled_vs_interrupted_witness :
    (∀ o ∈ [BodyOutcome.ok], o = BodyOutcome.ok) ∧
    (RF_Sensor.send_tx_frame none (Packet.waypoint_done 1) (some 2) =
        .error .disabled ∧
      RF_Sensor.loopRun ([BodyOutcome.ok] ++
          RF_Sensor.bodyOfSend none (Packet.waypoint_done 1) (some 2) :: []) =
        { termination := .disabledStop, reportedToSupervisor := false } ∧
      RF_Sensor.loopRun ([BodyOutcome.ok] ++ .raised (.other 7) :: []) =
        { termination := .interrupted, reportedToSupervisor := true } ∧
      LoopTermination.disabledStop ≠ LoopTermination.interrupted) :=
  ⟨by decide,
    loop_disabled_vs_interrupted [BodyOutcome.ok] [] (Packet.waypoint_done 1)
      (some 2) 7 (by decide)⟩

/-- C9 counterexample: invoking `add_commands()` directly on the
network-driven mission does not fail loudly — the `Mission_XBee` override
is `pass`, so the call returns normally and raises nothing, refuting the
claim that it raises an error fatal to the caller. -/
theorem add_commands_not_loud_counterexample :
    Mission_XBee.add_commands.failsLoudly = false := by
  decide

/-- C9 amended: invoking `add_commands()` directly on the network-driven
mission is a silent no-op (the `Mission_XBee` override is `pass` and
shadows the raising `Mission_Auto` base implementation), and `get_points()`
returns an empty list. -/
theorem add_commands_noop_and_no_points :
    Mission_XBee.add_commands = PyResult.returns ∧
    Mission_XBee.add_commands.failsLoudly = false ∧
    Mission_Auto.add_commands.failsLoudly = true ∧
    Mission_XBee.get_points = [] := by
  refine ⟨rfl, by decide, by decide, rfl⟩

/-- C1: for a `waypoint_add` packet addressed to this node, the waypoint is
accepted (the command list changes) iff the packet's index equals the
current `next_index`; on acceptance the decoded waypoint is appended,
`next_index` increases by exactly 1 and a `waypoint_ack` echoing the new
`next_index` is enqueued to id 0. -/
theorem waypoint_add_in_order (cfg : SensorCfg) (p : WaypointAdd)
    (w : MissionWorld) (hto : cfg.id = p.to_id) :
    ((Mission_XBee._add_waypoint cfg p w).mission.commands
        ≠ w.mission.commands ↔ p.index = w.mission.next_index) ∧
    (p.index = w.mission.next_index →
      (Mission_XBee._add_waypoint cfg p w).mission.commands
          = w.mission.commands ++ [decodeWaypoint p] ∧
      (Mission_XBee._add_waypoint cfg p w).mission.next_index
          = w.mission.next_index + 1 ∧
      (Mission_XBee._add_waypoint cfg p w).queue
          = w.queue ++
            [{ packet := Packet.waypoint_ack (w.mission.next_index + 1) cfg.id,
               toId := 0 }]) := by
  by_cases hidx : p.index = w.mission.next_index
  · rw [add_waypoint_accept_eq cfg p w hto hidx]
    have hne : w.mission.commands ++ [decodeWaypoint p] ≠ w.mission.commands := by
      intro h
      have := congrArg List.length h
      simp at this
    exact ⟨⟨fun _ => hidx, fun _ => hne⟩, fun _ => ⟨rfl, rfl, rfl⟩⟩
  · rw [add_waypoint_mismatch_eq cfg p w hto hidx]
    exact ⟨⟨fun h => absurd rfl h, fun h => absurd h hidx⟩,
      fun h => absurd h hidx⟩

/-- C1 witness: at a concrete empty mission, the in-order packet with index
0 is accepted, appended and acknowledged with `next_index = 1`. -/
theorem waypoint_add_in_order_witness :
    ((⟨1, 3⟩ : SensorCfg).id = (⟨1, 0, 1, 0, 0, 0, 0, 1, -1⟩ : WaypointAdd).to_id) ∧
    (((Mission_XBee._add_waypoint ⟨1, 3⟩ ⟨1, 0, 1, 0, 0, 0, 0, 1, -1⟩
        ⟨⟨[Command.takeoff], 0, false⟩, [], false⟩).mission.commands
          ≠ (⟨⟨[Command.takeoff], 0, false⟩, [], false⟩ :
              MissionWorld).mission.commands ↔
        (⟨1, 0, 1, 0, 0, 0, 0, 1, -1⟩ : WaypointAdd).index
          = (⟨⟨[Command.takeoff], 0, false⟩, [], false⟩ :
              MissionWorld).mission.next_index) ∧
      ((⟨1, 0, 1, 0, 0, 0, 0, 1, -1⟩ : WaypointAdd).index
          = (⟨⟨[Command.takeoff], 0, false⟩, [], false⟩ :
              MissionWorld).mission.next_index →
        (Mission_XBee._add_waypoint ⟨1, 3⟩ ⟨1, 0, 1, 0, 0, 0, 0, 1, -1⟩
            ⟨⟨[Command.takeoff], 0, false⟩, [], false⟩).mission.commands
          = (⟨⟨[Command.takeoff], 0, false⟩, [], false⟩ :
              MissionWorld).mission.commands ++
              [decodeWaypoint ⟨1, 0, 1, 0, 0, 0, 0, 1, -1⟩] ∧
        (Mission_XBee._add_waypoint ⟨1, 3⟩ ⟨1, 0, 1, 0, 0, 0, 0, 1, -1⟩
            ⟨⟨[Command.takeoff], 0, false⟩, [], false⟩).mission.next_index
          = (⟨⟨[Command.takeoff], 0, false⟩, [], false⟩ :
              MissionWorld).mission.next_index + 1 ∧
        (Mission_XBee._add_waypoint ⟨1, 3⟩ ⟨1, 0, 1, 0, 0, 0, 0, 1, -1⟩
            ⟨⟨[Command.takeoff], 0, false⟩, [], false⟩).queue
          = (⟨⟨[Command.takeoff], 0, false⟩, [], false⟩ :
              MissionWorld).queue ++
              [{ packet := Packet.waypoint_ack
                  ((⟨⟨[Command.takeoff], 0, false⟩, [], false⟩ :
                    MissionWorld).mission.next_index + 1) (⟨1, 3⟩ : SensorCfg).id,
                 toId := 0 }])) :=
  ⟨by decide,
    waypoint_add_in_order ⟨1, 3⟩ ⟨1, 0, 1, 0, 0, 0, 0, 1, -1⟩
      ⟨⟨[Command.takeoff], 0, false⟩, [], false⟩ (by decide)⟩

/-- C2: a `waypoint_add` packet addressed to this node whose index differs
from the current `next_index` leaves the mission state (waypoint list and
`next_index`) and the dump unchanged and only enqueues a `waypoint_ack`
echoing the unchanged `next_index`; in particular, resending a packet
that was just accepted leaves the mission unchanged and acknowledges the
same (new) `next_index` again. -/
theorem waypoint_add_mismatch (cfg : SensorCfg) (p : WaypointAdd)
    (w : MissionWorld) (hto : cfg.id = p.to_id) :
    (p.index ≠ w.mission.next_index →
      (Mission_XBee._add_waypoint cfg p w).mission = w.mission ∧
      (Mission_XBee._add_waypoint cfg p w).dumpExists = w.dumpExists ∧
      (Mission_XBee._add_waypoint cfg p w).queue
        = w.queue ++
          [{ packet := Packet.waypoint_ack w.mission.next_index cfg.id,
             toId := 0 }]) ∧
    (p.index = w.mission.next_index →
      (Mission_XBee._add_waypoint cfg p
          (Mission_XBee._add_waypoint cfg p w)).mission
        = (Mission_XBee._add_waypoint cfg p w).mission ∧
      (Mission_XBee._add_waypoint cfg p
          (Mission_XBee._add_waypoint cfg p w)).queue
        = (Mission_XBee._add_waypoint cfg p w).queue ++
          [{ packet := Packet.waypoint_ack (w.mission.next_index + 1) cfg.id,
             toId := 0 }]) := by
  constructor
  · intro hidx
    rw [add_waypoint_mismatch_eq cfg p w hto hidx]
    exact ⟨rfl, rfl, rfl⟩
  · intro hidx
    have h1 := add_waypoint_accept_eq cfg p w hto hidx
    have hidx2 : p.index ≠ (Mission_XBee._add_waypoint cfg p w).mission.next_index := by
      rw [h1]
      simp only []
      omega
    rw [add_waypoint_mismatch_eq cfg p (Mission_XBee._add_waypoint cfg p w) hto hidx2,
      h1]
    exact ⟨rfl, rfl⟩

/-- C2 witness: resending the already-accepted index-0 packet to a mission
that expects index 1 leaves the state unchanged and repeats the
acknowledgement, and the accepted-then-resent round-trip acknowledges the
same value twice, at a concrete input. -/
theorem waypoint_add_mismatch_witness :
    ((⟨2, 3⟩ : SensorCfg).id = (⟨2, 0, 5, 6, 0, 0, 2, 1, 4⟩ : WaypointAdd).to_id) ∧
    (((⟨2, 0, 5, 6, 0, 0, 2, 1, 4⟩ : WaypointAdd).index
        ≠ (⟨⟨[Command.takeoff], 1, false⟩, [], true⟩ :
            MissionWorld).mission.next_index →
      (Mission_XBee._add_waypoint ⟨2, 3⟩ ⟨2, 0, 5, 6, 0, 0, 2, 1, 4⟩
          ⟨⟨[Command.takeoff], 1, false⟩, [], true⟩).mission
        = (⟨⟨[Command.takeoff], 1, false⟩, [], true⟩ :
            MissionWorld).mission ∧
      (Mission_XBee._add_waypoint ⟨2, 3⟩ ⟨2, 0, 5, 6, 0, 0, 2, 1, 4⟩
          ⟨⟨[Command.takeoff], 1, false⟩, [], true⟩).dumpExists
        = (⟨⟨[Command.takeoff], 1, false⟩, [], true⟩ :
            MissionWorld).dumpExists ∧
      (Mission_XBee._add_waypoint ⟨2, 3⟩ ⟨2, 0, 5, 6, 0, 0, 2, 1, 4⟩
          ⟨⟨[Command.takeoff], 1, false⟩, [], true⟩).queue
        = (⟨⟨[Command.takeoff], 1, false⟩, [], true⟩ :
            MissionWorld).queue ++
          [{ packet := Packet.waypoint_ack
              (⟨⟨[Command.takeoff], 1, false⟩, [], true⟩ :
                MissionWorld).mission.next_index (⟨2, 3⟩ : SensorCfg).id,
             toId := 0 }]) ∧
    ((⟨2, 0, 5, 6, 0, 0, 2, 1, 4⟩ : WaypointAdd).index
        = (⟨⟨[Command.takeoff], 1, false⟩, [], true⟩ :
            MissionWorld).mission.next_index →
      (Mission_XBee._add_waypoint ⟨2, 3⟩ ⟨2, 0, 5, 6, 0, 0, 2, 1, 4⟩
          (Mission_XBee._add_waypoint ⟨2, 3⟩ ⟨2, 0, 5, 6, 0, 0, 2, 1, 4⟩
            ⟨⟨[Command.takeoff], 1, false⟩, [], true⟩)).mission
        = (Mission_XBee._add_waypoint ⟨2, 3⟩ ⟨2, 0, 5, 6, 0, 0, 2, 1, 4⟩
            ⟨⟨[Command.takeoff], 1, false⟩, [], true⟩).mission ∧
      (Mission_XBee._add_waypoint ⟨2, 3⟩ ⟨2, 0, 5, 6, 0, 0, 2, 1, 4⟩
          (Mission_XBee._add_waypoint ⟨2, 3⟩ ⟨2, 0, 5, 6, 0, 0, 2, 1, 4⟩
            ⟨⟨[Command.takeoff], 1, false⟩, [], true⟩)).queue
        = (Mission_XBee._add_waypoint ⟨2, 3⟩ ⟨2, 0, 5, 6, 0, 0, 2, 1, 4⟩
            ⟨⟨[Command.takeoff], 1, false⟩, [], true⟩).queue ++
          [{ packet := Packet.waypoint_ack
              ((⟨⟨[Command.takeoff], 1, false⟩, [], true⟩ :
                MissionWorld).mission.next_index + 1) (⟨2, 3⟩ : SensorCfg).id,
             toId := 0 }])) :=
  ⟨by decide,
    waypoint_add_mismatch ⟨2, 3⟩ ⟨2, 0, 5, 6, 0, 0, 2, 1, 4⟩
      ⟨⟨[Command.takeoff], 1, false⟩, [], true⟩ (by decide)⟩

/-- C3 counterexample: at a concrete `waypoint_done` packet addressed to
node 1, the handler sets the completion flag but enqueues no
acknowledgement and persists nothing (the dump still does not exist),
refuting the claim that it persists the waypoint list and replies with a
`waypoint_ack`. -/
theorem waypoint_done_counterexample :
    (Mission_XBee._complete_waypoints ⟨1, 3⟩ 1
      ⟨⟨[Command.takeoff], 4, false⟩, [], false⟩).mission.waypoints_complete
        = true ∧
    (Mission_XBee._complete_waypoints ⟨1, 3⟩ 1
      ⟨⟨[Command.takeoff], 4, false⟩, [], false⟩).queue = [] ∧
    (Mission_XBee._complete_waypoints ⟨1, 3⟩ 1
      ⟨⟨[Command.takeoff], 4, false⟩, [], false⟩).dumpExists = false := by
  decide

/-- C3 amended: for every `waypoint_done` packet addressed to this node,
the handler sets `waypoints_complete` to true and changes nothing else —
it neither persists anything to storage nor enqueues any reply. -/
theorem waypoint_done_sets_flag_only (cfg : SensorCfg) (to_id : Int)
    (w : MissionWorld) (hto : cfg.id = to_id) :
    (Mission_XBee._complete_waypoints cfg to_id w).mission.waypoints_complete
        = true ∧
    (Mission_XBee._complete_waypoints cfg to_id w).mission.commands
        = w.mission.commands ∧
    (Mission_XBee._complete_waypoints cfg to_id w).mission.next_index
        = w.mission.next_index ∧
    (Mission_XBee._complete_waypoints cfg to_id w).queue = w.queue ∧
    (Mission_XBee._complete_waypoints cfg to_id w).dumpExists = w.dumpExists := by
  rw [complete_waypoints_eq cfg to_id w hto]
  exact ⟨rfl, rfl, rfl, rfl, rfl⟩

/-- C3 witness: the flag-only behaviour at a concrete `waypoint_done`
packet addressed to node 2. -/
theorem waypoint_done_sets_flag_only_witness :
    ((⟨2, 3⟩ : SensorCfg).id = (2 : Int)) ∧
    ((Mission_XBee._complete_waypoints ⟨2, 3⟩ 2
        ⟨⟨[Command.takeoff], 3, false⟩, [], true⟩).mission.waypoints_complete
          = true ∧
      (Mission_XBee._complete_waypoints ⟨2, 3⟩ 2
        ⟨⟨[Command.takeoff], 3, false⟩, [], true⟩).mission.commands
          = (⟨⟨[Command.takeoff], 3, false⟩, [], true⟩ :
              MissionWorld).mission.commands ∧
      (Mission_XBee._complete_waypoints ⟨2, 3⟩ 2
        ⟨⟨[Command.takeoff], 3, false⟩, [], true⟩).mission.next_index
          = (⟨⟨[Command.takeoff], 3, false⟩, [], true⟩ :
              MissionWorld).mission.next_index ∧
      (Mission_XBee._complete_waypoints ⟨2, 3⟩ 2
        ⟨⟨[Command.takeoff], 3, false⟩, [], true⟩).queue
          = (⟨⟨[Command.takeoff], 3, false⟩, [], true⟩ :
              MissionWorld).queue ∧
      (Mission_XBee._complete_waypoints ⟨2, 3⟩ 2
        ⟨⟨[Command.takeoff], 3, false⟩, [], true⟩).dumpExists
          = (⟨⟨[Command.takeoff], 3, false⟩, [], true⟩ :
              MissionWorld).dumpExists) :=
  ⟨by decide,
    waypoint_done_sets_flag_only ⟨2, 3⟩ 2
      ⟨⟨[Command.takeoff], 3, false⟩, [], true⟩ (by decide)⟩

/-- C4 counterexample: at a concrete `waypoint_clear` packet addressed to
node 1 while a persisted dump exists, the handler leaves the dump in
place, refuting the claim that it deletes the persisted dump. -/
theorem waypoint_clear_counterexample :
    ¬ ((Mission_XBee._clear_waypoints ⟨1, 3⟩ 1
      ⟨⟨[Command.takeoff, Command.waypoint 1 2 0 none], 2, false⟩, [],
        true⟩).dumpExists = false) := by
  decide

/-- C4 amended: for every `waypoint_clear` packet addressed to this node,
regardless of prior state the handler empties the waypoint list down to
the re-inserted mandatory takeoff entry, resets `next_index` to 0 and
replies with a `waypoint_ack` carrying `next_index` 0 and this node's
sensor id to id 0; it does not touch any persisted dump. -/
theorem waypoint_clear_resets (cfg : SensorCfg) (to_id : Int)
    (w : MissionWorld) (hto : cfg.id = to_id) :
    (Mission_XBee._clear_waypoints cfg to_id w).mission.commands
        = [Command.takeoff] ∧
    (Mission_XBee._clear_waypoints cfg to_id w).mission.next_index = 0 ∧
    (Mission_XBee._clear_waypoints cfg to_id w).queue
        = w.queue ++ [{ packet := Packet.waypoint_ack 0 cfg.id, toId := 0 }] ∧
    (Mission_XBee._clear_waypoints cfg to_id w).dumpExists = w.dumpExists := by
  rw [clear_waypoints_eq cfg to_id w hto]
  exact ⟨rfl, rfl, rfl, rfl⟩

/-- C4 witness: the clear behaviour at a concrete `waypoint_clear` packet
addressed to node 1 with `next_index` 3. -/
theorem waypoint_clear_resets_witness :
    ((⟨1, 3⟩ : SensorCfg).id = (1 : Int)) ∧
    ((Mission_XBee._clear_waypoints ⟨1, 3⟩ 1
        ⟨⟨[Command.takeoff, Command.waypoint 4 2 0 (some [2])], 3, true⟩, [],
          true⟩).mission.commands = [Command.takeoff] ∧
      (Mission_XBee._clear_waypoints ⟨1, 3⟩ 1
        ⟨⟨[Command.takeoff, Command.waypoint 4 2 0 (some [2])], 3, true⟩, [],
          true⟩).mission.next_index = 0 ∧
      (Mission_XBee._clear_waypoints ⟨1, 3⟩ 1
        ⟨⟨[Command.takeoff, Command.waypoint 4 2 0 (some [2])], 3, true⟩, [],
          true⟩).queue
        = (⟨⟨[Command.takeoff, Command.waypoint 4 2 0 (some [2])], 3, true⟩, [],
            true⟩ : MissionWorld).queue ++
          [{ packet := Packet.waypoint_ack 0 (⟨1, 3⟩ : SensorCfg).id,
             toId := 0 }] ∧
      (Mission_XBee._clear_waypoints ⟨1, 3⟩ 1
        ⟨⟨[Command.takeoff, Command.waypoint 4 2 0 (some [2])], 3, true⟩, [],
          true⟩).dumpExists
        = (⟨⟨[Command.takeoff, Command.waypoint 4 2 0 (some [2])], 3, true⟩, [],
            true⟩ : MissionWorld).dumpExists) :=
  ⟨by decide,
    waypoint_clear_resets ⟨1, 3⟩ 1
      ⟨⟨[Command.takeoff, Command.waypoint 4 2 0 (some [2])], 3, true⟩, [],
        true⟩ (by decide)⟩

/-- C5: at any time instant, with slot duration positive, exactly one id in
`0..N` satisfies `in_slot` — namely the id equal to
`floor((now - frame_start) / slot_duration) mod (N+1)` — and the
assignment cycles with period `(N+1) * slot_duration`. -/
theorem in_slot_exclusive_periodic (n : Nat)
    (frameStart slotDuration now : Rat) (hd : 0 < slotDuration) :
    in_slot n (slotNumber frameStart slotDuration now % ((n : Int) + 1))
        frameStart slotDuration now = true ∧
    (∃! i : Int, 0 ≤ i ∧ i ≤ (n : Int) ∧
      in_slot n i frameStart slotDuration now = true) ∧
    (∀ i : Int,
      in_slot n i frameStart slotDuration
          (now + (((n : Int) + 1 : Int) : Rat) * slotDuration)
        = in_slot n i frameStart slotDuration now) := by
  have hmodpos : (0 : Int) < (n : Int) + 1 := by positivity
  have hself : in_slot n
      (slotNumber frameStart slotDuration now % ((n : Int) + 1))
      frameStart slotDuration now = true := by
    simp [in_slot]
  refine ⟨hself, ⟨slotNumber frameStart slotDuration now % ((n : Int) + 1),
    ⟨Int.emod_nonneg _ (by omega), ?_, hself⟩, ?_⟩, ?_⟩
  · have := Int.emod_lt_of_pos (slotNumber frameStart slotDuration now) hmodpos
    omega
  · rintro i ⟨_, _, hi⟩
    have : slotNumber frameStart slotDuration now % ((n : Int) + 1) = i := by
      simpa [in_slot] using hi
    omega
  · intro i
    have hd0 : slotDuration ≠ 0 := ne_of_gt hd
    have hdiv : (now + (((n : Int) + 1 : Int) : Rat) * slotDuration - frameStart)
          / slotDuration
        = (now - frameStart) / slotDuration + (((n : Int) + 1 : Int) : Rat) := by
      field_simp
      ring
    have hshift : slotNumber frameStart slotDuration
          (now + (((n : Int) + 1 : Int) : Rat) * slotDuration)
        = slotNumber frameStart slotDuration now + ((n : Int) + 1) := by
      unfold slotNumber
      rw [hdiv, Int.floor_add_int]
    have hmod : (slotNumber frameStart slotDuration now + ((n : Int) + 1))
          % ((n : Int) + 1)
        = slotNumber frameStart slotDuration now % ((n : Int) + 1) := by
      have := Int.add_mul_emod_self_left
        (a := slotNumber frameStart slotDuration now)
        (b := (n : Int) + 1) (c := 1)
      simpa using this
    simp only [in_slot, hshift, hmod]

/-- C5 witness: with 2 vehicles, slot duration 1 and the frame started at
time 0, the exclusivity and periodicity hold at instant 5/2. -/
theorem in_slot_exclusive_periodic_witness :
    (0 : Rat) < 1 ∧
    (in_slot 2 (slotNumber 0 1 (5/2) % ((2 : Int) + 1)) 0 1 (5/2) = true ∧
      (∃! i : Int, 0 ≤ i ∧ i ≤ (2 : Int) ∧ in_slot 2 i 0 1 (5/2) = true) ∧
      (∀ i : Int,
        in_slot 2 i 0 1 ((5/2) + (((2 : Int) + 1 : Int) : Rat) * 1)
          = in_slot 2 i 0 1 (5/2))) :=
  ⟨by norm_num, in_slot_exclusive_periodic 2 0 1 (5/2) (by norm_num)⟩

/-- C10: during a scheduled measurement send, every transmitted frame was
authorised by an `in_slot` consultation that returned true, so once the
scheduler reports the slot has ended (all consultations from index `k` on
return false) no frame of the batch is transmitted from then on, and the
relayed payloads followed by the packets still queued reconstitute the
original relay queue — unsent relay packets stay queued. -/
theorem send_rechecks_slot (slot : Nat → Bool) (cfg : SensorCfg)
    (packets : List Packet) (k : Nat) (hk : ∀ j, k ≤ j → slot j = false) :
    (∀ f ∈ (RF_Sensor.send slot cfg packets).sent,
      slot f.check = true ∧ f.check < k) ∧
    relayedPackets (RF_Sensor.send slot cfg packets).sent ++
      (RF_Sensor.send slot cfg packets).packets = packets := by
  have hlt : ∀ f : SentFrame, slot f.check = true → f.check < k := by
    intro f hf
    by_contra hge
    have := hk f.check (by omega)
    rw [this] at hf
    cases hf
  have happ : ∀ a b : List SentFrame,
      relayedPackets (a ++ b) = relayedPackets a ++ relayedPackets b := by
    intro a b
    simp [relayedPackets, List.filterMap_append]
  have hb := broadcastLoop_spec slot cfg.id (vehicleIds cfg.number_of_sensors)
    ⟨0, [], packets⟩
  have hbp := hb.1
  obtain ⟨Δb, hbs, hbrel, hball⟩ := hb.2
  have hsend : RF_Sensor.send slot cfg packets =
      if (RF_Sensor.broadcastLoop slot cfg.id (vehicleIds cfg.number_of_sensors)
          ⟨0, [], packets⟩).2 then
        (RF_Sensor.broadcastLoop slot cfg.id (vehicleIds cfg.number_of_sensors)
          ⟨0, [], packets⟩).1
      else
        RF_Sensor.relayLoop slot
          (RF_Sensor.broadcastLoop slot cfg.id (vehicleIds cfg.number_of_sensors)
            ⟨0, [], packets⟩).1.packets
          (RF_Sensor.broadcastLoop slot cfg.id (vehicleIds cfg.number_of_sensors)
            ⟨0, [], packets⟩).1.checks
          (RF_Sensor.broadcastLoop slot cfg.id (vehicleIds cfg.number_of_sensors)
            ⟨0, [], packets⟩).1.sent := rfl
  by_cases he : (RF_Sensor.broadcastLoop slot cfg.id
      (vehicleIds cfg.number_of_sensors) ⟨0, [], packets⟩).2 = true
  · rw [hsend, if_pos he]
    constructor
    · intro f hf
      rw [hbs] at hf
      simp only [List.nil_append] at hf
      exact ⟨hball f hf, hlt f (hball f hf)⟩
    · rw [hbs, hbp]
      simp only [List.nil_append, hbrel]
  · rw [hsend, if_neg he]
    obtain ⟨Δr, hrs, hrall, hrrec⟩ := relayLoop_spec slot
      (RF_Sensor.broadcastLoop slot cfg.id (vehicleIds cfg.number_of_sensors)
        ⟨0, [], packets⟩).1.packets
      (RF_Sensor.broadcastLoop slot cfg.id (vehicleIds cfg.number_of_sensors)
        ⟨0, [], packets⟩).1.checks
      (RF_Sensor.broadcastLoop slot cfg.id (vehicleIds cfg.number_of_sensors)
        ⟨0, [], packets⟩).1.sent
    constructor
    · intro f hf
      rw [hrs, hbs] at hf
      simp only [List.nil_append, List.mem_append] at hf
      rcases hf with hf | hf
      · exact ⟨hball f hf, hlt f (hball f hf)⟩
      · exact ⟨hrall f hf, hlt f (hrall f hf)⟩
    · rw [hbs] at hrrec
      rw [hrs, hbs]
      simp only [List.nil_append] at hrrec ⊢
      rw [happ, hbrel]
      simp only [List.nil_append]
      rw [hrrec, hbp]

/-- C10 witness: with 3 sensors, own id 1, two queued relay packets and a
slot that ends after two consultations, every transmitted frame was
authorised before the slot ended and the untransmitted relay packets stay
queued, at concrete inputs. -/
theorem send_rechecks_slot_witness :
    (∀ j, 2 ≤ j → (fun j => decide (j < 2)) j = false) ∧
    ((∀ f ∈ (RF_Sensor.send (fun j => decide (j < 2)) ⟨1, 3⟩
        [Packet.waypoint_done 1, Packet.waypoint_done 2]).sent,
      (fun j => decide (j < 2)) f.check = true ∧ f.check < 2) ∧
    relayedPackets (RF_Sensor.send (fun j => decide (j < 2)) ⟨1, 3⟩
        [Packet.waypoint_done 1, Packet.waypoint_done 2]).sent ++
      (RF_Sensor.send (fun j => decide (j < 2)) ⟨1, 3⟩
        [Packet.waypoint_done 1, Packet.waypoint_done 2]).packets
      = [Packet.waypoint_done 1, Packet.waypoint_done 2]) :=
  ⟨fun j hj => decide_eq_false_iff_not.mpr (Nat.not_lt.mpr hj),
    send_rechecks_slot (fun j => decide (j < 2)) ⟨1, 3⟩
      [Packet.waypoint_done 1, Packet.waypoint_done 2] 2
      (fun j hj => decide_eq_false_iff_not.mpr (Nat.not_lt.mpr hj))⟩

end DroneTomography
